import Mathlib

/-!
Shallow embedding of the availability computation and cache-consistency
engine of the events repository (`backend/events/utils.py`,
`apps/availability/signals.py`, `apps/users/signals.py`).

Modelling conventions:
* instants and dates are minutes / day indices as natural numbers; a slot
  starting at minute `t` falls on day `t / 1440`;
* Django querysets over a table become explicit lists passed as arguments;
  `QuerySet.filter(...)` becomes `List.filter` with the same condition;
* Django's `Model.objects.get(...)` is modelled with its three outcomes
  (no row, exactly one row, several rows — the last raises
  `MultipleObjectsReturned`, which the caller's `except Exception` turns
  into an error result);
* wall-clock performance metrics (`computation_time_ms` of a freshly
  computed result) are outside the model; the pure computation path of
  `get_available_slots` cannot raise, so its `error` field is `none`
  (the only modelled exception source is the cache `.get`).
-/

namespace Events

/-- A computed slot, mirroring the dict literal built in
`AvailabilityCalculator._get_daily_slots`. -/
structure Slot where
  start_time : Nat
  end_time : Nat
  duration_minutes : Nat
  available_spots : Nat
  deriving DecidableEq, Repr

/-- A booking row, with the fields read by `_is_slot_available`. -/
structure Booking where
  organizer : Nat
  event_type : Nat
  start_time : Nat
  end_time : Nat
  status : String
  attendee_count : Nat
  deriving DecidableEq, Repr

/-- An `EventTypeAvailabilityCache` row. -/
structure CacheEntry where
  organizer : Nat
  event_type : Nat
  date : Nat
  timezone_name : String
  attendee_count : Nat
  available_slots : List Slot
  computed_at : Nat
  expires_at : Nat
  is_dirty : Bool
  computation_time_ms : Nat
  deriving DecidableEq, Repr

/-- A `RecurringEventException` row. -/
structure RecurringEventException where
  event_type : Nat
  exception_date : Nat
  exception_type : String
  new_start_time : Option Nat
  deriving DecidableEq, Repr

/-- The organizer profile attributes read through `getattr` in
`_get_daily_slots`; `none` models a missing attribute, picked up by the
`getattr` defaults 9 and 17. -/
structure Profile where
  reasonable_hours_start : Option Nat
  reasonable_hours_end : Option Nat

/-- An `EventType` row.  `can_book_on_date` and `get_rrule_object` live in
`events/models.py`, which is not among the sources; they are kept abstract
as fields, per the data-model section of the specification. -/
structure EventType where
  id : Nat
  duration : Nat
  slot_interval_minutes : Nat
  max_attendees : Nat
  recurrence_type : String
  can_book_on_date : Nat → Bool
  get_rrule_object : Option String

/-- Modelled from the spec: `EventType.is_group_event` is defined in
`events/models.py`, which is not among the sources; the specification
describes a group event as one with capacity > 1 ("If the event type is a
group event (capacity > 1)"). -/
def EventType.is_group_event (et : EventType) : Bool :=
  decide (1 < et.max_attendees)

/-- The dictionary returned by `get_available_slots`, restricted to the
fields the claims are about (`performance_metrics` carries wall-clock data
outside the model). -/
structure AvailabilityResult where
  slots : List Slot
  total_slots : Nat
  cache_hit : Bool
  error : Option String
  deriving DecidableEq, Repr

/-- The day a slot falls on (`slot['start_time'].date()`). -/
def slotDate (s : Slot) : Nat :=
  s.start_time / 1440

/-- The `conflicting_bookings` queryset of
`AvailabilityCalculator._is_slot_available`: confirmed bookings of the
organizer overlapping the candidate under the half-open test
(`start_time__lt=end_time, end_time__gt=start_time`).  Note the source
does not filter by event type. -/
def conflicting_bookings (org : Nat) (bookings : List Booking) (s e : Nat) :
    List Booking :=
  bookings.filter fun b =>
    b.organizer == org && b.status == "confirmed" &&
      decide (b.start_time < e) && decide (s < b.end_time)

/-- `AvailabilityCalculator._is_slot_available`. -/
def is_slot_available (org : Nat) (et : EventType) (bookings : List Booking)
    (s e att : Nat) : Bool :=
  let conflicting := conflicting_bookings org bookings s e
  if et.is_group_event then
    decide ((conflicting.map Booking.attendee_count).sum + att ≤ et.max_attendees)
  else
    conflicting.isEmpty

/-- The queryset filter of `invalidate_availability_cache`: entries of the
organizer, further filtered by `date__gte` / `date__lte` when the
corresponding bound is passed (a Python `date` is always truthy, so `none`
models an absent bound). -/
def invalidateMatches (org : Nat) (ds de : Option Nat) (e : CacheEntry) : Bool :=
  e.organizer == org &&
    (match ds with
     | none => true
     | some a => decide (a ≤ e.date)) &&
    (match de with
     | none => true
     | some b => decide (e.date ≤ b))

/-- Outcome of `invalidate_availability_cache`: the updated table, the
count the function logs (`cache_entries.count()`, re-evaluated after the
update), and the Python return value — the function has no `return`
statement, so it returns `None`. -/
structure InvalidateOutcome where
  store : List CacheEntry
  loggedCount : Nat
  ret : Option Nat
  deriving DecidableEq, Repr

/-- `invalidate_availability_cache` from `backend/events/utils.py`. -/
def invalidate_availability_cache (org : Nat) (ds de : Option Nat)
    (store : List CacheEntry) : InvalidateOutcome :=
  let updated := store.map fun e =>
    if invalidateMatches org ds de e then { e with is_dirty := true } else e
  { store := updated
    loggedCount := (updated.filter (invalidateMatches org ds de)).length
    ret := none }

/-- One iteration of the exception loop in
`AvailabilityCalculator._apply_recurring_exceptions`: a `cancelled`
exception drops the slots of its date; the `rescheduled` branch of the
source is `pass`, and any other exception type falls through, so both
leave the slots unchanged. -/
def exceptionStep (ex : RecurringEventException) (slots : List Slot) :
    List Slot :=
  if ex.exception_type == "cancelled" then
    slots.filter fun s => slotDate s != ex.exception_date
  else if ex.exception_type == "rescheduled" && ex.new_start_time.isSome then
    slots
  else
    slots

/-- `AvailabilityCalculator._apply_recurring_exceptions`. -/
def apply_recurring_exceptions (et : EventType)
    (exceptions : List RecurringEventException) (slots : List Slot)
    (ds de : Nat) : List Slot :=
  if et.recurrence_type == "none" then
    slots
  else
    let exs := exceptions.filter fun ex =>
      ex.event_type == et.id && decide (ds ≤ ex.exception_date) &&
        decide (ex.exception_date ≤ de)
    exs.foldl (fun sl ex => exceptionStep ex sl) slots

/-- `AvailabilityCalculator._apply_recurring_logic`: both the early return
(`if not ... get_rrule_object()`) and the placeholder body return the
slots unchanged. -/
def apply_recurring_logic (et : EventType) (slots : List Slot) : List Slot :=
  if et.get_rrule_object.isNone then slots else slots

/-- The slot-generation loop of `AvailabilityCalculator._get_daily_slots`:
while `current + duration <= end_time`, append a slot when
`_is_slot_available` holds, then advance by `slot_interval`.  The interval
is positive at every call site (the source computes it as
`slot_interval_minutes or 30`), which the guard records so that the loop
terminates. -/
def slotsFrom (cur endT dur interval spots : Nat) (avail : Nat → Nat → Bool) :
    List Slot :=
  if h : cur + dur ≤ endT ∧ 0 < interval then
    (if avail cur (cur + dur) then
      [{ start_time := cur, end_time := cur + dur, duration_minutes := dur,
         available_spots := spots }]
     else []) ++ slotsFrom (cur + interval) endT dur interval spots avail
  else []
termination_by endT + 1 - cur
decreasing_by omega

/-- `AvailabilityCalculator._get_daily_slots`: working hours come from the
profile through `getattr` defaults 9 and 17; the interval is
`slot_interval_minutes or 30` (Python truthiness: 0 falls back to 30);
minutes are wall-clock minutes of the single timezone in play, so the
`pytz.localize` calls do not change the arithmetic. -/
def get_daily_slots (org : Nat) (et : EventType) (profile : Profile)
    (bookings : List Booking) (d att : Nat) : List Slot :=
  let start_hour := profile.reasonable_hours_start.getD 9
  let end_hour := profile.reasonable_hours_end.getD 17
  let slot_interval := if et.slot_interval_minutes == 0 then 30
    else et.slot_interval_minutes
  slotsFrom (d * 1440 + start_hour * 60) (d * 1440 + end_hour * 60)
    et.duration slot_interval et.max_attendees
    (fun s e => is_slot_available org et bookings s e att)

/-- `AvailabilityCalculator._calculate_availability`: loop over the dates
of `[start_date, end_date]`, contributing the daily slots of each date the
event type can be booked on, in chronological order. -/
def calculate_availability (org : Nat) (et : EventType) (profile : Profile)
    (bookings : List Booking) (curDate endDate att : Nat) : List Slot :=
  if curDate ≤ endDate then
    (if et.can_book_on_date curDate then
      get_daily_slots org et profile bookings curDate att
     else []) ++
      calculate_availability org et profile bookings (curDate + 1) endDate att
  else []
termination_by endDate + 1 - curDate
decreasing_by omega

/-- The computation path of `get_available_slots` (cache miss or cache
disabled): calculate, apply recurring logic when the recurrence type is
not `none`, apply exceptions, and package the result with
`cache_hit=False` and no error field. -/
def compute_availability (org : Nat) (et : EventType) (profile : Profile)
    (bookings : List Booking) (exceptions : List RecurringEventException)
    (ds de att : Nat) : AvailabilityResult :=
  let slots1 := calculate_availability org et profile bookings ds de att
  let slots2 := if et.recurrence_type != "none" then
      apply_recurring_logic et slots1
    else slots1
  let slots3 := apply_recurring_exceptions et exceptions slots2 ds de
  { slots := slots3
    total_slots := slots3.length
    cache_hit := false
    error := none }

/-- Outcome of the cache probe inside `_get_cached_availability`. -/
inductive CacheLookup where
  | hit : AvailabilityResult → CacheLookup
  | miss : CacheLookup
  | multiple : CacheLookup
  deriving DecidableEq

/-- The condition of the `EventTypeAvailabilityCache.objects.get(...)`
query of `_get_cached_availability`: key equality on
(organizer, event_type, date = start_date, timezone_name, attendee_count)
plus `is_dirty=False` and `expires_at__gt=now`. -/
def usableEntry (org etId : Nat) (tz : String) (d att now : Nat)
    (e : CacheEntry) : Bool :=
  e.organizer == org && e.event_type == etId && e.date == d &&
    e.timezone_name == tz && e.attendee_count == att && !e.is_dirty &&
    decide (now < e.expires_at)

/-- `AvailabilityCalculator._get_cached_availability`: Django `.get`
yields the row when exactly one matches, `DoesNotExist` (handled as a
miss) when none does, and `MultipleObjectsReturned` when several do. -/
def get_cached_availability (org etId : Nat) (tz : String) (d att now : Nat)
    (store : List CacheEntry) : CacheLookup :=
  match store.filter (usableEntry org etId tz d att now) with
  | [] => CacheLookup.miss
  | [e] => CacheLookup.hit
      { slots := e.available_slots
        total_slots := e.available_slots.length
        cache_hit := true
        error := none }
  | _ => CacheLookup.multiple

/-- `AvailabilityCalculator.get_available_slots`: probe the cache when
`use_cache` is set, serving a usable entry with `cache_hit=True`;
otherwise compute.  A `MultipleObjectsReturned` from the probe escapes the
`except DoesNotExist` and is converted by the outer `except Exception`
into the error result.  The write-back of a computed result mutates only
the cache table, not the returned dictionary, and is omitted here. -/
def get_available_slots (org : Nat) (et : EventType) (tz : String)
    (profile : Profile) (store : List CacheEntry) (bookings : List Booking)
    (exceptions : List RecurringEventException) (now ds de att : Nat)
    (use_cache : Bool) : AvailabilityResult :=
  if use_cache then
    match get_cached_availability org et.id tz ds att now store with
    | CacheLookup.hit r => r
    | CacheLookup.multiple =>
        { slots := [], total_slots := 0, cache_hit := false,
          error := some "MultipleObjectsReturned" }
    | CacheLookup.miss =>
        compute_availability org et profile bookings exceptions ds de att
  else
    compute_availability org et profile bookings exceptions ds de att

/-- Python truthiness of the `update_fields` keyword argument of a Django
`post_save` signal: `None` and an empty collection are falsy. -/
def ufTruthy (uf : Option (List String)) : Bool :=
  match uf with
  | none => false
  | some l => !l.isEmpty

/-- `handle_profile_timezone_change` from `apps/users/signals.py`.
`savedTz` is `instance.timezone_name`; `storedTz` is what
`Profile.objects.get(pk=instance.pk)` returns (`none` models
`Profile.DoesNotExist`, whose handler is `pass`). -/
def handle_profile_timezone_change (uf : Option (List String))
    (savedTz : String) (storedTz : Option String) (userId : Nat)
    (store : List CacheEntry) : List CacheEntry :=
  if ufTruthy uf && (uf.getD []).contains "timezone_name" then
    (invalidate_availability_cache userId none none store).store
  else if !ufTruthy uf then
    match storedTz with
    | some old =>
        if old != savedTz then
          (invalidate_availability_cache userId none none store).store
        else store
    | none => store
  else store

/-! ### Helper lemmas -/

/-- Number of loop iterations of the slot-generation loop that append a
candidate: one start every `interval` minutes from `cur`, while
`start + dur ≤ endT`. -/
def slotCount (cur endT dur interval : Nat) : Nat :=
  if cur + dur ≤ endT then (endT - (cur + dur)) / interval + 1 else 0

theorem slotsFrom_stop (cur endT dur interval spots : Nat)
    (avail : Nat → Nat → Bool) (h : endT < cur + dur) :
    slotsFrom cur endT dur interval spots avail = [] := by
  rw [slotsFrom, dif_neg (by omega)]

theorem slotCount_step (cur endT dur interval : Nat)
    (h1 : cur + dur ≤ endT) (h2 : 0 < interval) :
    slotCount cur endT dur interval =
      slotCount (cur + interval) endT dur interval + 1 := by
  unfold slotCount
  rw [if_pos h1]
  by_cases h3 : cur + interval + dur ≤ endT
  · rw [if_pos h3]
    have hsub : endT - (cur + interval + dur) = endT - (cur + dur) - interval := by
      omega
    have hge : interval ≤ endT - (cur + dur) := by omega
    rw [Nat.div_eq_sub_div h2 hge, hsub]
  · rw [if_neg h3]
    have hlt : endT - (cur + dur) < interval := by omega
    rw [Nat.div_eq_of_lt hlt]

theorem slotsFrom_fueled (dur interval spots : Nat) (avail : Nat → Nat → Bool)
    (hpos : 0 < interval) (hav : ∀ s e, avail s e = true) :
    ∀ n cur endT, endT + 1 - cur ≤ n →
      slotsFrom cur endT dur interval spots avail =
        (List.range (slotCount cur endT dur interval)).map
          (fun i => { start_time := cur + i * interval,
                      end_time := cur + i * interval + dur,
                      duration_minutes := dur, available_spots := spots }) := by
  intro n
  induction n with
  | zero =>
    intro cur endT hn
    have hc : ¬ (cur + dur ≤ endT) := by omega
    rw [slotsFrom, dif_neg (by omega)]
    simp [slotCount, hc]
  | succ n ih =>
    intro cur endT hn
    by_cases hc : cur + dur ≤ endT
    · rw [slotsFrom, dif_pos ⟨hc, hpos⟩, hav cur (cur + dur), if_pos rfl,
        ih (cur + interval) endT (by omega), slotCount_step cur endT dur interval hc hpos,
        List.range_succ_eq_map, List.map_cons, List.map_map]
      simp only [Nat.zero_mul, Nat.add_zero, List.singleton_append]
      congr 1
      apply List.map_congr_left
      intro i _
      have hmul : cur + Nat.succ i * interval = cur + interval + i * interval := by
        simp [Nat.succ_mul]
        ring
      simp [Function.comp, hmul]
    · rw [slotsFrom, dif_neg (by omega)]
      simp [slotCount, hc]

theorem slotsFrom_all_avail (cur endT dur interval spots : Nat)
    (avail : Nat → Nat → Bool) (hpos : 0 < interval)
    (hav : ∀ s e, avail s e = true) :
    slotsFrom cur endT dur interval spots avail =
      (List.range (slotCount cur endT dur interval)).map
        (fun i => { start_time := cur + i * interval,
                    end_time := cur + i * interval + dur,
                    duration_minutes := dur, available_spots := spots }) :=
  slotsFrom_fueled dur interval spots avail hpos hav (endT + 1 - cur) cur endT
    (Nat.le_refl _)

theorem calculate_availability_stop (org : Nat) (et : EventType)
    (profile : Profile) (bookings : List Booking) (curDate endDate att : Nat)
    (h : endDate < curDate) :
    calculate_availability org et profile bookings curDate endDate att = [] := by
  rw [calculate_availability, if_neg (by omega)]

theorem calculate_availability_step (org : Nat) (et : EventType)
    (profile : Profile) (bookings : List Booking) (curDate endDate att : Nat)
    (h : curDate ≤ endDate) :
    calculate_availability org et profile bookings curDate endDate att =
      (if et.can_book_on_date curDate then
        get_daily_slots org et profile bookings curDate att
       else []) ++
        calculate_availability org et profile bookings (curDate + 1) endDate att := by
  rw [calculate_availability, if_pos h]

/-- The slot-keeping condition a single exception contributes: a
`cancelled` exception keeps the slots of other dates, anything else keeps
every slot. -/
def stepKeep (ex : RecurringEventException) (s : Slot) : Bool :=
  if ex.exception_type == "cancelled" then slotDate s != ex.exception_date
  else true

theorem exceptionStep_eq (ex : RecurringEventException) (slots : List Slot) :
    exceptionStep ex slots = slots.filter (stepKeep ex) := by
  unfold exceptionStep stepKeep
  by_cases hc : ex.exception_type == "cancelled"
  · rw [if_pos hc]
    simp [hc]
  · rw [if_neg hc, ite_self]
    simp [hc, List.filter_true]

theorem foldl_exceptionStep_eq_filter (exs : List RecurringEventException) :
    ∀ slots : List Slot,
      exs.foldl (fun sl ex => exceptionStep ex sl) slots =
        slots.filter (fun s => exs.all fun ex => stepKeep ex s) := by
  induction exs with
  | nil =>
    intro slots
    simp [List.filter_true]
  | cons ex exs ih =>
    intro slots
    rw [List.foldl_cons, ih, exceptionStep_eq, List.filter_filter]
    apply List.filter_congr
    intro s _
    simp [List.all_cons, Bool.and_comm]

theorem length_filter_mono {α : Type} (p q : α → Bool)
    (h : ∀ x, p x = true → q x = true) :
    ∀ l : List α, (l.filter p).length ≤ (l.filter q).length := by
  intro l
  induction l with
  | nil => simp
  | cons x l ih =>
    by_cases hp : p x
    · have hq := h x hp
      simp only [List.filter_cons, hp, hq, if_pos, List.length_cons]
      omega
    · rw [List.filter_cons, if_neg hp]
      by_cases hq : q x
      · rw [List.filter_cons, if_pos hq]
        simp only [List.length_cons]
        omega
      · rw [List.filter_cons, if_neg hq]
        exact ih

theorem filter_length_map_invariant {α : Type} (p : α → Bool) (f : α → α)
    (hf : ∀ x, p (f x) = p x) :
    ∀ l : List α, ((l.map f).filter p).length = (l.filter p).length := by
  intro l
  induction l with
  | nil => rfl
  | cons x l ih =>
    simp only [List.map_cons, List.filter_cons, hf]
    by_cases hp : p x
    · simp [hp, ih]
    · simp [hp, ih]

theorem sum_map_filter_eq {α : Type} (p : α → Bool) (f : α → Nat) :
    ∀ l : List α, ((l.filter p).map f).sum =
      (l.map fun x => if p x then f x else 0).sum := by
  intro l
  induction l with
  | nil => rfl
  | cons x l ih =>
    by_cases hp : p x <;> simp [List.filter_cons, hp, ih]

/-! ### Scenario constants -/

/-- A single-attendee event type (capacity 1). -/
def etSingle : EventType :=
  { id := 1, duration := 30, slot_interval_minutes := 30, max_attendees := 1,
    recurrence_type := "none", can_book_on_date := fun _ => true,
    get_rrule_object := none }

/-- A group event type with `max_attendees = 5`. -/
def etGroup : EventType :=
  { id := 1, duration := 30, slot_interval_minutes := 30, max_attendees := 5,
    recurrence_type := "none", can_book_on_date := fun _ => true,
    get_rrule_object := none }

/-- A recurring event type (recurrence type other than `none`). -/
def etWeekly : EventType :=
  { id := 1, duration := 30, slot_interval_minutes := 30, max_attendees := 1,
    recurrence_type := "weekly", can_book_on_date := fun _ => true,
    get_rrule_object := none }

/-- A profile with both working-hour attributes absent, so the `getattr`
defaults 9 and 17 apply. -/
def profileDefault : Profile :=
  { reasonable_hours_start := none, reasonable_hours_end := none }

/-- A confirmed booking of the same organizer but of a different event
type (`event_type = 2`), occupying minutes 600 to 630 of day 0 (10:00 to
10:30). -/
def bookingOtherType : Booking :=
  { organizer := 1, event_type := 2, start_time := 600, end_time := 630,
    status := "confirmed", attendee_count := 1 }

/-- A confirmed group booking with three attendees, minutes 840 to 870 of
day 0 (14:00 to 14:30). -/
def bookingGroup3 : Booking :=
  { organizer := 1, event_type := 1, start_time := 840, end_time := 870,
    status := "confirmed", attendee_count := 3 }

/-! ### Claim C2 -/

/-- Stated from the claim's words, for comparison with the source: the
claim says availability considers exactly the confirmed bookings of the
same organizer AND the same event type that overlap the candidate. -/
def claimedConflictingBookings (org : Nat) (et : EventType)
    (bookings : List Booking) (s e : Nat) : List Booking :=
  bookings.filter fun b =>
    b.organizer == org && b.event_type == et.id && b.status == "confirmed" &&
      decide (b.start_time < e) && decide (s < b.end_time)

/-- Claim C2 counterexample: for a single-attendee event type and a
confirmed overlapping booking of the same organizer but a different event
type, the code reports the candidate unavailable although zero confirmed
bookings of (organizer, eventType) overlap it — the source filter has no
`event_type` condition. -/
theorem c2_counterexample :
    is_slot_available 1 etSingle [bookingOtherType] 600 630 1 = false ∧
    claimedConflictingBookings 1 etSingle [bookingOtherType] 600 630 = [] := by
  constructor <;> rfl

/-- Claim C2 (amended): the availability decision considers exactly the
confirmed bookings of the same organizer — regardless of event type —
whose intervals overlap the candidate under the half-open test; for a
non-group event type the candidate is available iff zero such bookings
exist. -/
theorem c2_single_attendee_amended (org : Nat) (et : EventType)
    (bookings : List Booking) (s e att : Nat)
    (hg : et.is_group_event = false) :
    is_slot_available org et bookings s e att = true ↔
      ∀ b ∈ bookings,
        ¬ (b.organizer = org ∧ b.status = "confirmed" ∧
            b.start_time < e ∧ s < b.end_time) := by
  have hng : ¬ (et.is_group_event = true) := by simp [hg]
  simp only [is_slot_available, conflicting_bookings]
  rw [if_neg hng, List.isEmpty_iff, List.filter_eq_nil_iff]
  constructor
  · intro hall b hb hc
    apply hall b hb
    simp [hc.1, hc.2.1, hc.2.2.1, hc.2.2.2]
  · intro hall b hb hc
    apply hall b hb
    simp only [Bool.and_eq_true, beq_iff_eq, decide_eq_true_eq] at hc
    tauto

/-- Claim C2 amended-theorem witness: with only the other-event-type
booking on 10:00–10:30, the candidate 00:00–00:30 does not overlap any
confirmed booking of the organizer and is available. -/
theorem c2_witness :
    is_slot_available 1 etSingle [bookingOtherType] 0 30 1 = true :=
  (c2_single_attendee_amended 1 etSingle [bookingOtherType] 0 30 1
    (by decide)).mpr (by decide)

/-! ### Claim C3 -/

/-- Claim C3: for a group event type (capacity > 1) a candidate is
available iff the attendee counts of the organizer's overlapping confirmed
bookings plus the requested count fit within `max_attendees`. -/
theorem c3_group_capacity (org : Nat) (et : EventType)
    (bookings : List Booking) (s e att : Nat) (h : 1 < et.max_attendees) :
    is_slot_available org et bookings s e att = true ↔
      (bookings.map fun b =>
          if b.organizer = org ∧ b.status = "confirmed" ∧
              b.start_time < e ∧ s < b.end_time
          then b.attendee_count else 0).sum + att ≤ et.max_attendees := by
  have hg : et.is_group_event = true := by
    simp [EventType.is_group_event, h]
  simp only [is_slot_available, conflicting_bookings]
  rw [if_pos hg, decide_eq_true_eq, sum_map_filter_eq]
  have hmap : (bookings.map fun b =>
      if (b.organizer == org && b.status == "confirmed" &&
          decide (b.start_time < e) && decide (s < b.end_time)) = true
      then b.attendee_count else 0) =
      (bookings.map fun b =>
        if b.organizer = org ∧ b.status = "confirmed" ∧
            b.start_time < e ∧ s < b.end_time
        then b.attendee_count else 0) := by
    apply List.map_congr_left
    intro b _
    by_cases hb : b.organizer = org ∧ b.status = "confirmed" ∧
        b.start_time < e ∧ s < b.end_time
    · rw [if_pos hb, if_pos]
      simp [hb.1, hb.2.1, hb.2.2.1, hb.2.2.2]
    · rw [if_neg hb, if_neg]
      intro hcontra
      apply hb
      simp only [Bool.and_eq_true, beq_iff_eq, decide_eq_true_eq] at hcontra
      tauto
  rw [hmap]

/-- Claim C3 witness, scenario C of the spec: `max_attendees = 5`, one
overlapping confirmed booking with three attendees on 14:00–14:30; a
query for two more attendees finds the slot available (3+2 ≤ 5) and a
query for three does not (3+3 > 5). -/
theorem c3_witness :
    is_slot_available 1 etGroup [bookingGroup3] 840 870 2 = true ∧
    is_slot_available 1 etGroup [bookingGroup3] 840 870 3 = false := by
  refine ⟨(c3_group_capacity 1 etGroup [bookingGroup3] 840 870 2
    (by decide)).mpr (by decide), ?_⟩
  decide

theorem compute_availability_norec (org : Nat) (et : EventType)
    (profile : Profile) (bookings : List Booking)
    (exceptions : List RecurringEventException) (ds de att : Nat)
    (h : et.recurrence_type = "none") :
    compute_availability org et profile bookings exceptions ds de att =
      { slots := calculate_availability org et profile bookings ds de att,
        total_slots :=
          (calculate_availability org et profile bookings ds de att).length,
        cache_hit := false, error := none } := by
  simp only [compute_availability, apply_recurring_exceptions, h]
  simp

/-! ### Claim C5 -/

/-- Claim C5: with every candidate passing the availability check, the
slot loop produces intervals of exactly the configured duration, one
start every `interval` minutes from the working-hours start, stopping
once start + duration would pass the working-hours end; it is empty when
the duration exceeds the window; and in scenario A (duration 30, interval
30, working hours 09:00–17:00, zero bookings) one date yields 16 slots,
the first at 09:00 and the last starting at 16:30. -/
theorem c5_slot_generation :
    (∀ cur endT dur interval spots (avail : Nat → Nat → Bool),
        0 < interval → (∀ s e, avail s e = true) →
        slotsFrom cur endT dur interval spots avail =
          (List.range (slotCount cur endT dur interval)).map
            (fun i => { start_time := cur + i * interval,
                        end_time := cur + i * interval + dur,
                        duration_minutes := dur, available_spots := spots })) ∧
    (∀ cur endT dur interval spots (avail : Nat → Nat → Bool),
        endT < cur + dur →
        slotsFrom cur endT dur interval spots avail = []) ∧
    ((get_daily_slots 1 etSingle profileDefault [] 0 1).length = 16 ∧
      (get_daily_slots 1 etSingle profileDefault [] 0 1).head?.map
        Slot.start_time = some 540 ∧
      (get_daily_slots 1 etSingle profileDefault [] 0 1).getLast?.map
        Slot.start_time = some 990) := by
  refine ⟨fun cur endT dur interval spots avail h1 h2 =>
      slotsFrom_all_avail cur endT dur interval spots avail h1 h2,
    fun cur endT dur interval spots avail h =>
      slotsFrom_stop cur endT dur interval spots avail h, ?_⟩
  have havail : ∀ s e, is_slot_available 1 etSingle [] s e 1 = true :=
    fun s e => rfl
  have hdaily : get_daily_slots 1 etSingle profileDefault [] 0 1 =
      (List.range 16).map
        (fun i => { start_time := 540 + i * 30, end_time := 540 + i * 30 + 30,
                    duration_minutes := 30, available_spots := 1 }) := by
    have h := slotsFrom_all_avail 540 1020 30 30 1
      (fun s e => is_slot_available 1 etSingle [] s e 1) (by omega) havail
    have hc : slotCount 540 1020 30 30 = 16 := by decide
    calc get_daily_slots 1 etSingle profileDefault [] 0 1
        = slotsFrom 540 1020 30 30 1
            (fun s e => is_slot_available 1 etSingle [] s e 1) := rfl
      _ = _ := by rw [h, hc]
  rw [hdaily]
  refine ⟨by simp, by decide, by decide⟩

/-- Claim C5 witness: the loop shape and emptiness parts of the theorem
applied at concrete inputs with their hypotheses discharged. -/
theorem c5_witness :
    slotsFrom 0 10 20 5 1 (fun _ _ => true) = [] ∧
    slotsFrom 0 60 30 30 2 (fun _ _ => true) =
      (List.range (slotCount 0 60 30 30)).map
        (fun i => { start_time := 0 + i * 30, end_time := 0 + i * 30 + 30,
                    duration_minutes := 30, available_spots := 2 }) :=
  ⟨c5_slot_generation.2.1 0 10 20 5 1 (fun _ _ => true) (by omega),
   c5_slot_generation.1 0 60 30 30 2 (fun _ _ => true) (by omega)
     (fun _ _ => rfl)⟩

/-! ### Claim C6 -/

/-- An event type whose duration is zero — an input the claim says must be
rejected with `InvalidConfigurationError`. -/
def etZeroDur : EventType :=
  { id := 1, duration := 0, slot_interval_minutes := 30, max_attendees := 1,
    recurrence_type := "none", can_book_on_date := fun _ => true,
    get_rrule_object := none }

theorem daily_slots_zero_duration (org att d : Nat) :
    get_daily_slots org etZeroDur profileDefault [] d att =
      (List.range 17).map
        (fun i => { start_time := d * 1440 + 540 + i * 30,
                    end_time := d * 1440 + 540 + i * 30 + 0,
                    duration_minutes := 0, available_spots := 1 }) := by
  have havail : ∀ s e, is_slot_available org etZeroDur [] s e att = true :=
    fun s e => rfl
  have h := slotsFrom_all_avail (d * 1440 + 540) (d * 1440 + 1020) 0 30 1
    (fun s e => is_slot_available org etZeroDur [] s e att) (by omega) havail
  have hc : slotCount (d * 1440 + 540) (d * 1440 + 1020) 0 30 = 17 := by
    unfold slotCount
    rw [if_pos (by omega)]
    have hsub : d * 1440 + 1020 - (d * 1440 + 540 + 0) = 480 := by omega
    rw [hsub]
  calc get_daily_slots org etZeroDur profileDefault [] d att
      = slotsFrom (d * 1440 + 540) (d * 1440 + 1020) 0 30 1
          (fun s e => is_slot_available org etZeroDur [] s e att) := rfl
    _ = _ := by rw [h, hc]

theorem calculate_availability_one_day_zero_dur (org att d : Nat) :
    calculate_availability org etZeroDur profileDefault [] d d att =
      get_daily_slots org etZeroDur profileDefault [] d att := by
  rw [calculate_availability_step org etZeroDur profileDefault [] d d att
      (Nat.le_refl d),
    calculate_availability_stop org etZeroDur profileDefault [] (d + 1) d att
      (by omega)]
  have hcb : etZeroDur.can_book_on_date d = true := rfl
  rw [if_pos hcb, List.append_nil]

/-- Claim C6 counterexample: with `duration_minutes = 0` (an instance of
duration ≤ 0) the calculator does not fail: the result carries no error
and the computation ran to completion, producing 17 zero-length slots for
the day — no `InvalidConfigurationError` exists in the source and no
validation is performed. -/
theorem c6_counterexample :
    (get_available_slots 1 etZeroDur "UTC" profileDefault [] [] [] 0 0 0 1
      false).error = none ∧
    (get_available_slots 1 etZeroDur "UTC" profileDefault [] [] [] 0 0 0 1
      false).total_slots = 17 := by
  have h := compute_availability_norec 1 etZeroDur profileDefault [] [] 0 0 1 rfl
  constructor
  · show (compute_availability 1 etZeroDur profileDefault [] [] 0 0 1).error
        = none
    rw [h]
  · show (compute_availability 1 etZeroDur profileDefault [] [] 0 0 1).total_slots
        = 17
    rw [h]
    show (calculate_availability 1 etZeroDur profileDefault [] 0 0 1).length = 17
    rw [calculate_availability_one_day_zero_dur, daily_slots_zero_duration]
    simp

/-- Claim C6 (amended): slot generation performs no validation of
duration or interval; for an event type with `duration_minutes = 0` the
calculation completes normally for any queried day — the result carries
no error and consists of 17 zero-length slots under the default
09:00–17:00 working hours. -/
theorem c6_no_validation (org : Nat) (tz : String) (store : List CacheEntry)
    (exceptions : List RecurringEventException) (now d att : Nat) :
    (get_available_slots org etZeroDur tz profileDefault store [] exceptions
      now d d att false).error = none ∧
    (get_available_slots org etZeroDur tz profileDefault store [] exceptions
      now d d att false).total_slots = 17 ∧
    ∀ s ∈ (get_available_slots org etZeroDur tz profileDefault store []
      exceptions now d d att false).slots, s.duration_minutes = 0 := by
  have h := compute_availability_norec org etZeroDur profileDefault []
    exceptions d d att rfl
  have hslots : calculate_availability org etZeroDur profileDefault [] d d att =
      (List.range 17).map
        (fun i => { start_time := d * 1440 + 540 + i * 30,
                    end_time := d * 1440 + 540 + i * 30 + 0,
                    duration_minutes := 0, available_spots := 1 }) := by
    rw [calculate_availability_one_day_zero_dur, daily_slots_zero_duration]
  refine ⟨?_, ?_, ?_⟩
  · show (compute_availability org etZeroDur profileDefault [] exceptions
        d d att).error = none
    rw [h]
  · show (compute_availability org etZeroDur profileDefault [] exceptions
        d d att).total_slots = 17
    rw [h]
    show (calculate_availability org etZeroDur profileDefault [] d d att).length
        = 17
    rw [hslots]
    simp
  · intro s hs
    have hs2 : s ∈ (compute_availability org etZeroDur profileDefault []
        exceptions d d att).slots := hs
    rw [h] at hs2
    have hs3 : s ∈ calculate_availability org etZeroDur profileDefault [] d d att :=
      hs2
    rw [hslots] at hs3
    obtain ⟨i, _, hi⟩ := List.mem_map.mp hs3
    rw [← hi]

/-! ### Claims C7 and C8 -/

/-- The 09:00–09:30 slot of day 0. -/
def slot0900 : Slot :=
  { start_time := 540, end_time := 570, duration_minutes := 30,
    available_spots := 1 }

/-- A `rescheduled` exception for day 0 carrying a new start time. -/
def excRescheduled : RecurringEventException :=
  { event_type := 1, exception_date := 0, exception_type := "rescheduled",
    new_start_time := some 600 }

/-- A `cancelled` exception for day 0. -/
def excCancelled : RecurringEventException :=
  { event_type := 1, exception_date := 0, exception_type := "cancelled",
    new_start_time := none }

/-- Claim C7 (code bug): for a recurring event type, a `rescheduled`
exception with a `new_start_time` inside the queried range leaves the
slot sequence unchanged — the source's branch for this case is `pass` —
so the original date's slot is kept and no slot anchored at the new start
time (minute 600) appears. -/
theorem c7_rescheduled_is_noop :
    apply_recurring_exceptions etWeekly [excRescheduled] [slot0900] 0 0 =
      [slot0900] := by
  decide

/-- Claim C8: applying recurring-event exceptions is the identity on the
slot sequence when the event type's recurrence type is `none`, and it is
idempotent for every event type, exception table, slot sequence and date
range. -/
theorem c8_exceptions_identity_idempotent (et : EventType)
    (exceptions : List RecurringEventException) (slots : List Slot)
    (ds de : Nat) :
    (et.recurrence_type = "none" →
      apply_recurring_exceptions et exceptions slots ds de = slots) ∧
    apply_recurring_exceptions et exceptions
        (apply_recurring_exceptions et exceptions slots ds de) ds de =
      apply_recurring_exceptions et exceptions slots ds de := by
  constructor
  · intro h
    simp [apply_recurring_exceptions, h]
  · by_cases h : et.recurrence_type == "none"
    · simp only [apply_recurring_exceptions, if_pos h]
    · simp only [apply_recurring_exceptions, if_neg h]
      rw [foldl_exceptionStep_eq_filter, foldl_exceptionStep_eq_filter,
        List.filter_filter]
      apply List.filter_congr
      intro s _
      exact Bool.and_self _

/-- Claim C8 witness: the identity part at a `none`-recurrence event type
and the idempotence part at a recurring one, on a concrete slot list. -/
theorem c8_witness :
    apply_recurring_exceptions etSingle [excCancelled] [slot0900] 0 0 =
      [slot0900] ∧
    apply_recurring_exceptions etWeekly [excCancelled]
        (apply_recurring_exceptions etWeekly [excCancelled] [slot0900] 0 0)
        0 0 =
      apply_recurring_exceptions etWeekly [excCancelled] [slot0900] 0 0 :=
  ⟨(c8_exceptions_identity_idempotent etSingle [excCancelled] [slot0900]
      0 0).1 rfl,
   (c8_exceptions_identity_idempotent etWeekly [excCancelled] [slot0900]
      0 0).2⟩

/-! ### Claim C9 -/

theorem apply_recurring_logic_id (et : EventType) (slots : List Slot) :
    apply_recurring_logic et slots = slots := by
  unfold apply_recurring_logic
  exact ite_self slots

theorem apply_recurring_exceptions_nil (et : EventType)
    (exceptions : List RecurringEventException) (ds de : Nat) :
    apply_recurring_exceptions et exceptions [] ds de = [] := by
  unfold apply_recurring_exceptions
  by_cases h : et.recurrence_type == "none"
  · rw [if_pos h]
  · rw [if_neg h, foldl_exceptionStep_eq_filter]
    rfl

/-- Claim C9: a call with start date strictly after end date and caching
disabled returns an empty slot list, zero total slots and no error — an
inverted range is not rejected as an error. -/
theorem c9_inverted_range_empty (org : Nat) (et : EventType) (tz : String)
    (profile : Profile) (store : List CacheEntry) (bookings : List Booking)
    (exceptions : List RecurringEventException) (now ds de att : Nat)
    (h : de < ds) :
    get_available_slots org et tz profile store bookings exceptions now ds de
        att false =
      { slots := [], total_slots := 0, cache_hit := false, error := none } := by
  show compute_availability org et profile bookings exceptions ds de att = _
  have hcalc := calculate_availability_stop org et profile bookings ds de att h
  simp [compute_availability, hcalc, apply_recurring_logic_id,
    apply_recurring_exceptions_nil]

/-- Claim C9 witness: the theorem at the concrete inverted range [5, 4]. -/
theorem c9_witness :
    get_available_slots 1 etSingle "UTC" profileDefault [] [] [] 0 5 4 1
        false =
      { slots := [], total_slots := 0, cache_hit := false, error := none } :=
  c9_inverted_range_empty 1 etSingle "UTC" profileDefault [] [] [] 0 5 4 1
    (by omega)

/-! ### Claim C1 -/

theorem get_available_slots_cache_true (org : Nat) (et : EventType)
    (tz : String) (profile : Profile) (store : List CacheEntry)
    (bookings : List Booking) (exceptions : List RecurringEventException)
    (now ds de att : Nat) :
    get_available_slots org et tz profile store bookings exceptions now ds de
        att true =
      (match get_cached_availability org et.id tz ds att now store with
       | CacheLookup.hit r => r
       | CacheLookup.multiple =>
           { slots := [], total_slots := 0, cache_hit := false,
             error := some "MultipleObjectsReturned" }
       | CacheLookup.miss =>
           compute_availability org et profile bookings exceptions ds de att) :=
  rfl

theorem usableEntry_iff (org etId : Nat) (tz : String) (d att now : Nat)
    (e : CacheEntry) :
    usableEntry org etId tz d att now e = true ↔
      (e.organizer = org ∧ e.event_type = etId ∧ e.date = d ∧
        e.timezone_name = tz ∧ e.attendee_count = att ∧ e.is_dirty = false ∧
        now < e.expires_at) := by
  simp only [usableEntry, Bool.and_eq_true, beq_iff_eq, Bool.not_eq_true',
    decide_eq_true_eq]
  tauto

theorem usableEntry_key (org etId : Nat) (tz : String) (d att now : Nat)
    (e : CacheEntry) (he : usableEntry org etId tz d att now e = true) :
    (e.organizer == org && e.event_type == etId && e.date == d &&
      e.timezone_name == tz && e.attendee_count == att) = true := by
  simp only [usableEntry, Bool.and_eq_true] at he
  simp only [Bool.and_eq_true]
  exact he.1.1

/-- Claim C1: with caching enabled and at most one cache row for the
query key, the result is served from cache (`cache_hit = true`) iff a
usable entry exists — one matching the key with `is_dirty = false` and
the current time strictly before `expires_at`; and when every clean
key-matching entry is already expired, the query reports
`cache_hit = false` and returns the freshly computed result. -/
theorem c1_cache_hit_iff_usable (org : Nat) (et : EventType) (tz : String)
    (profile : Profile) (store : List CacheEntry) (bookings : List Booking)
    (exceptions : List RecurringEventException) (now ds de att : Nat)
    (huniq : (store.filter fun e =>
        e.organizer == org && e.event_type == et.id && e.date == ds &&
          e.timezone_name == tz && e.attendee_count == att).length ≤ 1) :
    ((get_available_slots org et tz profile store bookings exceptions now ds
        de att true).cache_hit = true ↔
      ∃ e ∈ store, e.organizer = org ∧ e.event_type = et.id ∧ e.date = ds ∧
        e.timezone_name = tz ∧ e.attendee_count = att ∧ e.is_dirty = false ∧
        now < e.expires_at) ∧
    ((∀ e ∈ store, e.organizer = org → e.event_type = et.id → e.date = ds →
        e.timezone_name = tz → e.attendee_count = att → e.is_dirty = false →
        e.expires_at ≤ now) →
      get_available_slots org et tz profile store bookings exceptions now ds
          de att true =
        compute_availability org et profile bookings exceptions ds de att) := by
  cases hfil : store.filter (usableEntry org et.id tz ds att now) with
  | nil =>
    have hmiss : get_cached_availability org et.id tz ds att now store =
        CacheLookup.miss := by
      unfold get_cached_availability
      rw [hfil]
    have hres : get_available_slots org et tz profile store bookings
        exceptions now ds de att true =
        compute_availability org et profile bookings exceptions ds de att := by
      rw [get_available_slots_cache_true, hmiss]
    constructor
    · rw [hres]
      constructor
      · intro hcontra
        exact absurd hcontra (by simp [compute_availability])
      · rintro ⟨e, hmem, hp⟩
        exfalso
        have hin : e ∈ store.filter (usableEntry org et.id tz ds att now) :=
          List.mem_filter.mpr
            ⟨hmem, (usableEntry_iff org et.id tz ds att now e).mpr hp⟩
        rw [hfil] at hin
        cases hin
    · intro _
      exact hres
  | cons e tail =>
    have hsub : (store.filter (usableEntry org et.id tz ds att now)).length ≤ 1 :=
      le_trans (length_filter_mono _ _
        (usableEntry_key org et.id tz ds att now) store) huniq
    rw [hfil] at hsub
    have htail : tail = [] := by
      cases tail with
      | nil => rfl
      | cons f tf => simp at hsub
    subst htail
    have hhit : get_cached_availability org et.id tz ds att now store =
        CacheLookup.hit
          { slots := e.available_slots,
            total_slots := e.available_slots.length, cache_hit := true,
            error := none } := by
      unfold get_cached_availability
      rw [hfil]
    have hres : get_available_slots org et tz profile store bookings
        exceptions now ds de att true =
        { slots := e.available_slots,
          total_slots := e.available_slots.length, cache_hit := true,
          error := none } := by
      rw [get_available_slots_cache_true, hhit]
    have hmem : e ∈ store.filter (usableEntry org et.id tz ds att now) := by
      rw [hfil]
      exact List.mem_cons_self e []
    obtain ⟨hmem2, hP⟩ := List.mem_filter.mp hmem
    obtain ⟨h1, h2, h3, h4, h5, h6, h7⟩ :=
      (usableEntry_iff org et.id tz ds att now e).mp hP
    constructor
    · rw [hres]
      constructor
      · intro _
        exact ⟨e, hmem2, h1, h2, h3, h4, h5, h6, h7⟩
      · intro _
        rfl
    · intro hall
      exfalso
      have := hall e hmem2 h1 h2 h3 h4 h5 h6
      omega

/-- An availability cache entry for key (1, 1, day 0, UTC, 1) that is
clean but expired at time 5. -/
def entryExpired : CacheEntry :=
  { organizer := 1, event_type := 1, date := 0, timezone_name := "UTC",
    attendee_count := 1, available_slots := [slot0900], computed_at := 0,
    expires_at := 5, is_dirty := false, computation_time_ms := 7 }

/-- Claim C1 witness, scenario E: a clean entry whose `expires_at` (5) is
before the current time (10) is not served — the next query reports
`cache_hit = false`. -/
theorem c1_witness :
    (get_available_slots 1 etSingle "UTC" profileDefault [entryExpired] [] []
      10 0 0 1 true).cache_hit = false := by
  have h := c1_cache_hit_iff_usable 1 etSingle "UTC" profileDefault
    [entryExpired] [] [] 10 0 0 1 (by decide)
  rw [h.2 (by decide)]
  rfl

/-! ### Claim C4 -/

/-- A cache entry's date lies in the (possibly half-open or absent)
invalidation range. -/
def dateInRange (ds de : Option Nat) (d : Nat) : Prop :=
  (∀ a, ds = some a → a ≤ d) ∧ (∀ b, de = some b → d ≤ b)

theorem invalidateMatches_iff (org : Nat) (ds de : Option Nat)
    (e : CacheEntry) :
    invalidateMatches org ds de e = true ↔
      (e.organizer = org ∧ dateInRange ds de e.date) := by
  unfold invalidateMatches dateInRange
  cases ds with
  | none =>
    cases de with
    | none =>
      simp only [Bool.and_true, Bool.and_eq_true, beq_iff_eq]
      constructor
      · intro h
        refine ⟨h, ?_, ?_⟩ <;> intro x hx <;> cases hx
      · intro h
        exact h.1
    | some b =>
      simp only [Bool.and_true, Bool.and_eq_true, beq_iff_eq,
        decide_eq_true_eq]
      constructor
      · intro h
        refine ⟨h.1, ?_, ?_⟩
        · intro x hx
          cases hx
        · intro x hx
          injection hx with hx2
          subst hx2
          exact h.2
      · intro h
        exact ⟨h.1, h.2.2 b rfl⟩
  | some a =>
    cases de with
    | none =>
      simp only [Bool.and_true, Bool.and_eq_true, beq_iff_eq,
        decide_eq_true_eq]
      constructor
      · intro h
        refine ⟨h.1, ?_, ?_⟩
        · intro x hx
          injection hx with hx2
          subst hx2
          exact h.2
        · intro x hx
          cases hx
      · intro h
        exact ⟨h.1, h.2.1 a rfl⟩
    | some b =>
      simp only [Bool.and_eq_true, beq_iff_eq, decide_eq_true_eq]
      constructor
      · intro h
        refine ⟨h.1.1, ?_, ?_⟩
        · intro x hx
          injection hx with hx2
          subst hx2
          exact h.1.2
        · intro x hx
          injection hx with hx2
          subst hx2
          exact h.2
      · intro h
        exact ⟨⟨h.1, h.2.1 a rfl⟩, h.2.2 b rfl⟩

theorem invalidateMatches_update (org : Nat) (ds de : Option Nat)
    (e : CacheEntry) :
    invalidateMatches org ds de { e with is_dirty := true } =
      invalidateMatches org ds de e := rfl

/-- Claim C4 (amended): `invalidate_availability_cache` marks dirty
exactly the organizer's entries whose date lies in the given range,
deletes no entry, leaves every other entry unchanged, and logs — rather
than returns — the number of matching entries; the function itself
returns `None`. -/
theorem c4_invalidate_amended (org : Nat) (ds de : Option Nat)
    (store : List CacheEntry) :
    ((invalidate_availability_cache org ds de store).store.length =
      store.length) ∧
    (∀ i (h1 : i < store.length)
        (h2 : i < (invalidate_availability_cache org ds de store).store.length),
      (((store.get ⟨i, h1⟩).organizer = org ∧
          dateInRange ds de (store.get ⟨i, h1⟩).date) →
        (invalidate_availability_cache org ds de store).store.get ⟨i, h2⟩ =
          { store.get ⟨i, h1⟩ with is_dirty := true }) ∧
      (¬ ((store.get ⟨i, h1⟩).organizer = org ∧
          dateInRange ds de (store.get ⟨i, h1⟩).date) →
        (invalidate_availability_cache org ds de store).store.get ⟨i, h2⟩ =
          store.get ⟨i, h1⟩)) ∧
    ((invalidate_availability_cache org ds de store).loggedCount =
      (store.filter (invalidateMatches org ds de)).length) ∧
    ((invalidate_availability_cache org ds de store).ret = none) := by
  refine ⟨by simp [invalidate_availability_cache], ?_, ?_, rfl⟩
  · intro i h1 h2
    constructor
    · intro hmatch
      have hm : invalidateMatches org ds de (store.get ⟨i, h1⟩) = true :=
        (invalidateMatches_iff org ds de _).mpr hmatch
      simp only [List.get_eq_getElem] at hm ⊢
      simp [invalidate_availability_cache, List.getElem_map, hm]
    · intro hmatch
      have hm : ¬ (invalidateMatches org ds de (store.get ⟨i, h1⟩) = true) :=
        fun hc => hmatch ((invalidateMatches_iff org ds de _).mp hc)
      simp only [List.get_eq_getElem] at hm ⊢
      simp [invalidate_availability_cache, List.getElem_map, hm]
  · show ((store.map fun e =>
        if invalidateMatches org ds de e then { e with is_dirty := true }
        else e).filter (invalidateMatches org ds de)).length =
      (store.filter (invalidateMatches org ds de)).length
    apply filter_length_map_invariant
    intro e
    by_cases hm : invalidateMatches org ds de e
    · rw [if_pos hm]
      exact invalidateMatches_update org ds de e
    · rw [if_neg hm]

/-- Claim C4 counterexample: at a store with one matching clean entry the
function's return value is `None`, not the count of affected entries (1,
which it only logs) — the source has no return statement. -/
theorem c4_counterexample :
    (invalidate_availability_cache 1 none none [entryExpired]).ret = none ∧
    (invalidate_availability_cache 1 none none [entryExpired]).ret ≠ some 1 ∧
    (invalidate_availability_cache 1 none none [entryExpired]).loggedCount
      = 1 := by
  refine ⟨rfl, by decide, rfl⟩

/-- Claim C4 amended-theorem witness: the matching entry of a concrete
one-entry store is marked dirty. -/
theorem c4_witness :
    (invalidate_availability_cache 1 none none [entryExpired]).store.get
        ⟨0, by decide⟩ =
      { entryExpired with is_dirty := true } := by
  have h := (c4_invalidate_amended 1 none none [entryExpired]).2.1 0
    (by decide) (by decide)
  refine h.1 ⟨rfl, ?_, ?_⟩ <;> intro x hx <;> cases hx

/-! ### Claim C10 -/

/-- Claim C10 counterexample: a save with `update_fields` containing
`timezone_name` invalidates even when the stored timezone equals the
saved one — the organizer's clean entry becomes dirty, although the claim
says a save that does not change `timezone_name` leaves every entry's
`is_dirty` unchanged. -/
theorem c10_counterexample :
    handle_profile_timezone_change (some ["timezone_name"]) "UTC"
        (some "UTC") 1 [entryExpired] =
      [{ entryExpired with is_dirty := true }] ∧
    entryExpired.is_dirty = false := by
  constructor <;> rfl

/-- Claim C10 (amended): a Profile save with a non-empty `update_fields`
that excludes `timezone_name`, or a save without `update_fields` whose
stored timezone equals the saved one, triggers no cache invalidation: the
handler leaves the cache table unchanged. -/
theorem c10_no_change_no_invalidation (uf : Option (List String))
    (savedTz : String) (storedTz : Option String) (userId : Nat)
    (store : List CacheEntry)
    (h : (∃ l, uf = some l ∧ l ≠ [] ∧ "timezone_name" ∉ l) ∨
      (ufTruthy uf = false ∧ storedTz = some savedTz)) :
    handle_profile_timezone_change uf savedTz storedTz userId store =
      store := by
  unfold handle_profile_timezone_change
  rcases h with ⟨l, hl, hne, hnotin⟩ | ⟨hf, hst⟩
  · subst hl
    have ht : ufTruthy (some l) = true := by
      cases l with
      | nil => exact absurd rfl hne
      | cons x xs => rfl
    have hc : ((some l).getD []).contains "timezone_name" = false := by
      simpa using hnotin
    rw [ht, hc]
    simp
  · rw [hf, hst]
    simp

/-- Claim C10 amended-theorem witness: a save touching only another field
and a full save with an unchanged timezone both leave the store as is. -/
theorem c10_witness :
    handle_profile_timezone_change (some ["language"]) "UTC"
        (some "Asia/Kolkata") 1 [entryExpired] = [entryExpired] ∧
    handle_profile_timezone_change none "UTC" (some "UTC") 2 [entryExpired] =
      [entryExpired] :=
  ⟨c10_no_change_no_invalidation (some ["language"]) "UTC"
      (some "Asia/Kolkata") 1 [entryExpired]
      (Or.inl ⟨["language"], rfl, by decide, by decide⟩),
   c10_no_change_no_invalidation none "UTC" (some "UTC") 2 [entryExpired]
      (Or.inr ⟨rfl, rfl⟩)⟩

end Events
